import Mathlib

/-!
# Verification of the hanau session protocol

A shallow embedding of the hanau WebSocket wrapper (server side:
`src/unnamed/part_002`, class `HanauServer`; client side:
`src/unnamed/part_003`, class `HanauClient`) together with proofs and
refutations of the documented protocol properties.

Conventions of the embedding:

* JavaScript `Map` objects are modelled as association lists in insertion
  order (`jsGet`, `jsSet`, `jsDelete`, `jsHas`), matching the `Map`
  semantics relevant here: `set` on an existing key updates the entry in
  place keeping its position, `set` on a fresh key appends, iteration is
  in insertion order.
* A physical WebSocket connection is identified by a `ConnId`; its mutable
  fields (`isAlive`, `lastSentId`, `sessionId`, `readyState`,
  `bufferedAmount`) form a `ConnState`.
* The single-threaded event loop is modelled by a `step` function over
  explicit events (`SEvent`): connection arrival, a `handshake` message,
  the deferred `setImmediate` replay body, the `close` event, the `pong`
  event, the periodic ping sweep, the public `send`/`broadcast` API calls,
  and a transport-level change of a connection's buffered byte count.
* Transmissions performed by the low-level `_send` helper are logged in
  `ServerState.sent`; invocations of the disconnection listeners are
  logged in `ServerState.disconnectNotifs` (one log entry per event that
  runs the whole listener array).
* Handshake validation hooks (`handshakeListeners`) are modelled in the
  configuration where none are registered, so the hook loop of the source
  is vacuous.
* Packet `data` payloads are opaque to every property considered here and
  are modelled as `Option Nat` (with `none` for JavaScript `null`).
-/

namespace Hanau

/-- Wire packet envelope `{ id, command, data }` (part_002 lines 10-15). -/
structure Packet where
  id : Nat
  command : String
  data : Option Nat
  deriving Repr, DecidableEq

/-- Identifier of a physical WebSocket connection. -/
abbrev ConnId := Nat

/-- WebSocket ready states (`CONNECTING`/`OPEN`/`CLOSING`/`CLOSED`). -/
inductive ReadyState where
  | connecting
  | opened
  | closing
  | closed
  deriving Repr, DecidableEq

/-- Lookup in a JavaScript `Map` modelled as an insertion-ordered
association list (`Map.prototype.get`). -/
def jsGet {κ τ : Type} [DecidableEq κ] : List (κ × τ) → κ → Option τ
  | [], _ => none
  | (k', v) :: rest, k => if k' = k then some v else jsGet rest k

/-- Membership test (`Map.prototype.has`). -/
def jsHas {κ τ : Type} [DecidableEq κ] (m : List (κ × τ)) (k : κ) : Bool :=
  (jsGet m k).isSome

/-- Insertion/update (`Map.prototype.set`): an existing key is updated in
place keeping its position, a fresh key is appended at the end. -/
def jsSet {κ τ : Type} [DecidableEq κ] : List (κ × τ) → κ → τ → List (κ × τ)
  | [], k, v => [(k, v)]
  | (k', v') :: rest, k, v =>
      if k' = k then (k, v) :: rest else (k', v') :: jsSet rest k v

/-- Deletion (`Map.prototype.delete`). -/
def jsDelete {κ τ : Type} [DecidableEq κ] (m : List (κ × τ)) (k : κ) : List (κ × τ) :=
  m.filter (fun e => decide (e.1 ≠ k))

/-- Minimum of a list of numbers, as in `Math.min(...)` applied to a
nonempty argument list (the `[]` case is never reached by the caller). -/
def listMin : List Nat → Nat
  | [] => 0
  | k :: ks => ks.foldl Nat.min k

/-- The smallest key of a history map, `Math.min(...history.keys())`
(part_002 line 258). -/
def minKey (m : List (Nat × Packet)) : Nat :=
  listMin (m.map Prod.fst)

/-! ## Client side (`HanauClient`, part_003) -/

/-- The protocol-relevant mutable state of a `HanauClient` instance
(part_003 lines 15-43).  `listeners` is the set of commands that have at
least one registered message listener; `delivered` logs, in order, every
packet whose `data` was handed to the application message listeners. -/
structure ClientState where
  alive : Bool
  lastSentId : Nat
  lastReceivedId : Nat
  reconnectCount : Nat
  mayReconnect : Bool
  handshakeComplete : Bool
  listeners : List String
  delivered : List Packet
  deriving Repr, DecidableEq

/-- Client state right after the constructor ran (part_003 lines 15-43):
counters zeroed, reconnection allowed, and one listener registered for
`handshake_ack`. -/
def initClient : ClientState :=
  { alive := false
    lastSentId := 0
    lastReceivedId := 0
    reconnectCount := 0
    mayReconnect := true
    handshakeComplete := false
    listeners := ["handshake_ack"]
    delivered := [] }

/-- Dispatch of a packet to the registered message listeners
(part_003 lines 128-130): it fires when `msg.command` is truthy and a
listener array is registered for it. -/
def clientDispatch (cs : ClientState) (msg : Packet) : ClientState :=
  if msg.command ≠ "" ∧ msg.command ∈ cs.listeners then
    { cs with delivered := cs.delivered ++ [msg] }
  else cs

/-- `HanauClient._handleMessage` (part_003 lines 120-131): a truthy id at
or below `lastReceivedId` causes an early return; otherwise a truthy id
advances `lastReceivedId` and the packet is dispatched. -/
def handleMessage (cs : ClientState) (msg : Packet) : ClientState :=
  if msg.id ≠ 0 then
    if msg.id ≤ cs.lastReceivedId then cs
    else clientDispatch { cs with lastReceivedId := msg.id } msg
  else
    clientDispatch cs msg

/-- Processing of a sequence of incoming packets by `_handleMessage`. -/
def processAll (cs : ClientState) (msgs : List Packet) : ClientState :=
  msgs.foldl handleMessage cs

/-- `HanauClient._reconnect` (part_003 lines 231-248).  The result pairs
the updated client state with the delay of the `setTimeout` scheduled for
the next connection attempt (`none` when nothing is scheduled). -/
def reconnectStep (cs : ClientState) : ClientState × Option Nat :=
  if !cs.mayReconnect then (cs, none)
  else if cs.reconnectCount > 5 then ({ cs with mayReconnect := false }, none)
  else
    let cs1 := { cs with reconnectCount := cs.reconnectCount + 1 }
    (cs1, some (1000 * cs1.reconnectCount))

/-- Iterated `_reconnect` calls (each scheduled attempt failing again). -/
def reconnectN (cs : ClientState) : Nat → ClientState
  | 0 => cs
  | n + 1 => (reconnectStep (reconnectN cs n)).1

/-! ## Server side (`HanauServer`, part_002) -/

/-- The ad-hoc mutable fields that `HanauServer` keeps on each WebSocket
object (`HanauWebSocket`, part_002 lines 5-7 and 63-67), together with the
transport-level `readyState` and `bufferedAmount` of the socket and the
code passed to `close()`. -/
structure ConnState where
  isAlive : Bool
  lastSentId : Nat
  sessionId : Option String
  readyState : ReadyState
  bufferedAmount : Nat
  closeCode : Option Nat
  deriving Repr, DecidableEq

/-- A logged `_send` transmission: the target connection, the session id
bound to that connection at transmission time, and the packet. -/
structure SentRec where
  conn : ConnId
  boundSession : Option String
  packet : Packet
  deriving Repr, DecidableEq

/-- The state of a `HanauServer` instance (part_002 lines 44-61):
the connection objects, the session registry `clients`
(sessionId → connection), the per-session history maps
(sessionId → packetId → packet), plus observation logs of `_send`
transmissions, connection-listener and disconnection-listener
invocations, and low-level pings. -/
structure ServerState where
  conns : List (ConnId × ConnState)
  clients : List (String × ConnId)
  clientHistories : List (String × List (Nat × Packet))
  sent : List SentRec
  connectNotifs : List String
  disconnectNotifs : List String
  pinged : List ConnId
  deriving Repr, DecidableEq

/-- Server state right after the constructor ran: every map empty. -/
def initServer : ServerState :=
  { conns := []
    clients := []
    clientHistories := []
    sent := []
    connectNotifs := []
    disconnectNotifs := []
    pinged := [] }

/-- Pointwise update of the entry stored under a key, leaving every other
entry alone (mutation of the object referenced from a JavaScript `Map`). -/
def jsUpdate {κ τ : Type} [DecidableEq κ] (k : κ) (f : τ → τ) : List (κ × τ) → List (κ × τ)
  | [] => []
  | (k', v) :: rest =>
      (if k' = k then (k', f v) else (k', v)) :: jsUpdate k f rest

/-- Update the mutable fields of one connection object in place. -/
def updateConn (s : ServerState) (c : ConnId) (f : ConnState → ConnState) : ServerState :=
  { s with conns := jsUpdate c f s.conns }

/-- The low-level send helper `HanauServer._send` (part_002 lines 290-292),
observed as an append to the transmission log. -/
def sendRaw (s : ServerState) (c : ConnId) (p : Packet) : ServerState :=
  { s with sent := s.sent ++ [⟨c, (jsGet s.conns c).bind (fun w => w.sessionId), p⟩] }

/-- A call of `ws.close(code)`: on an open or connecting socket the
closing handshake starts (`readyState` becomes CLOSING) and the code is
retained; on a closing or closed socket the call is a no-op. -/
def wsClose (s : ServerState) (c : ConnId) (code : Nat) : ServerState :=
  updateConn s c (fun w =>
    match w.readyState with
    | .connecting => { w with readyState := .closing, closeCode := some code }
    | .opened => { w with readyState := .closing, closeCode := some code }
    | _ => w)

/-- A call of `ws.terminate()`: the socket is destroyed immediately. -/
def wsTerminate (s : ServerState) (c : ConnId) : ServerState :=
  updateConn s c (fun w => { w with readyState := .closed })

/-- Arrival of a new physical connection (part_002 lines 63-67):
`isAlive` is set and `lastSentId` is initialised to `0` on the
connection object. -/
def handleConnect (s : ServerState) (c : ConnId) : ServerState :=
  let w : ConnState :=
    { isAlive := true
      lastSentId := 0
      sessionId := none
      readyState := .opened
      bufferedAmount := 0
      closeCode := none }
  { s with conns := jsSet s.conns c w }

/-- The `handshake` branch of the message handler (part_002 lines 83-129),
in the configuration with no registered handshake hooks: reject an empty
session id; close any connection already bound to the session id with
code 4002; bind this connection; send `handshake_ack` with the next
outbound id of this connection; create the history map if absent; notify
the connection listeners.  The deferred `setImmediate` replay body is the
separate event `runReplay`. -/
def handleHandshake (s : ServerState) (c : ConnId) (sid : String)
    (_lastReceivedId : Nat) : ServerState :=
  match jsGet s.conns c with
  | none => s
  | some _ =>
    if sid = "" then wsClose s c 4001
    else
      let s1 := match jsGet s.clients sid with
        | some oldC => wsClose s oldC 4002
        | none => s
      let s2 := updateConn s1 c (fun w => { w with sessionId := some sid })
      let s3 := { s2 with clients := jsSet s2.clients sid c }
      let s4 := updateConn s3 c (fun w => { w with lastSentId := w.lastSentId + 1 })
      let ackId := match jsGet s4.conns c with
        | some w => w.lastSentId
        | none => 0
      let s5 := sendRaw s4 c { id := ackId, command := "handshake_ack", data := none }
      let s6 :=
        if jsHas s5.clientHistories sid then s5
        else { s5 with clientHistories := jsSet s5.clientHistories sid [] }
      { s6 with connectNotifs := s6.connectNotifs ++ [sid] }

/-- The deferred replay body scheduled by `setImmediate` during the
handshake (part_002 lines 116-125): iterate the history map in insertion
order and `_send` every entry whose id exceeds the handshake's
`lastReceivedId`. -/
def runReplay (s : ServerState) (c : ConnId) (sid : String)
    (lastReceivedId : Nat) : ServerState :=
  match jsGet s.clientHistories sid with
  | none => s
  | some h =>
      h.foldl (fun acc e => if e.1 > lastReceivedId then sendRaw acc c e.2 else acc) s

/-- The `close` event handler of a connection (part_002 lines 158-164):
if the socket object carries a session id, that registry entry is deleted
and the disconnection listeners fire — with no check that the registry
still maps the session id to this very socket. -/
def handleClose (s : ServerState) (c : ConnId) : ServerState :=
  match jsGet s.conns c with
  | none => s
  | some w =>
    let s1 := updateConn s c (fun w0 => { w0 with readyState := .closed })
    match w.sessionId with
    | some sid =>
        { s1 with clients := jsDelete s1.clients sid
                  disconnectNotifs := s1.disconnectNotifs ++ [sid] }
    | none => s1

/-- The body run by the ping sweep for one registry entry
(part_002 lines 168-180): a connection whose `isAlive` flag is down is
terminated, its session entry deleted and the disconnection listeners
fired; otherwise the flag is cleared and a low-level ping is sent. -/
def sweepVisit (s : ServerState) (c : ConnId) : ServerState :=
  match jsGet s.conns c with
  | none => s
  | some w =>
    if !w.isAlive then
      let s1 := wsTerminate s c
      match w.sessionId with
      | some sid =>
          { s1 with clients := jsDelete s1.clients sid
                    disconnectNotifs := s1.disconnectNotifs ++ [sid] }
      | none => s1
    else
      let s1 := updateConn s c (fun w0 => { w0 with isAlive := false })
      { s1 with pinged := s1.pinged ++ [c] }

/-- `Map.prototype.forEach` over the session registry, as used by the
ping sweep: entries are visited in insertion order of the snapshot, an
entry deleted before its visit is skipped. -/
def sweepGo (s : ServerState) : List String → ServerState
  | [] => s
  | k :: rest =>
    match jsGet s.clients k with
    | none => sweepGo s rest
    | some c => sweepGo (sweepVisit s c) rest

/-- One firing of the periodic ping sweep (part_002 lines 167-181). -/
def runSweep (s : ServerState) : ServerState :=
  sweepGo s (s.clients.map Prod.fst)

/-- The `pong` event handler (part_002 lines 69-71). -/
def handlePong (s : ServerState) (c : ConnId) : ServerState :=
  updateConn s c (fun w => { w with isAlive := true })

/-- The history insertion performed by `HanauServer.send`
(part_002 lines 254-260): `history.set(packet.id, packet)`, then if the
size exceeds 100 the entry with the smallest id is deleted. -/
def historyInsert (h : List (Nat × Packet)) (p : Packet) : List (Nat × Packet) :=
  let h1 := jsSet h p.id p
  if h1.length > 100 then jsDelete h1 (minKey h1) else h1

/-- `HanauServer.send` (part_002 lines 224-263): return silently when the
session has no bound connection or the connection is not OPEN; stamp the
packet with the connection's next outbound id; if the connection's
buffered byte count exceeds `5e6`, terminate it, unbind the session and
fire the disconnection listeners, dropping the packet; otherwise record
the packet in the session's history (creating it if needed, with the
100-entry cap) and transmit it. -/
def serverSend (s : ServerState) (sid : String) (command : String)
    (d : Option Nat) : ServerState :=
  match jsGet s.clients sid with
  | none => s
  | some c =>
    match jsGet s.conns c with
    | none => s
    | some w0 =>
      if w0.readyState ≠ .opened then s
      else
        let s1 := updateConn s c (fun w => { w with lastSentId := w.lastSentId + 1 })
        let packet : Packet := { id := w0.lastSentId + 1, command := command, data := d }
        if w0.bufferedAmount > 5000000 then
          let s2 := wsTerminate s1 c
          let s3 := { s2 with clients := jsDelete s2.clients sid }
          { s3 with disconnectNotifs := s3.disconnectNotifs ++ [sid] }
        else
          let s2 :=
            if jsHas s1.clientHistories sid then s1
            else { s1 with clientHistories := jsSet s1.clientHistories sid [] }
          match jsGet s2.clientHistories sid with
          | none => s2
          | some h =>
            let s3 := { s2 with
              clientHistories := jsSet s2.clientHistories sid (historyInsert h packet) }
            sendRaw s3 c packet

/-- The body run by `HanauServer.broadcast` for one registry entry
(part_002 lines 271-282): skip connections that are not OPEN, stamp the
packet with the connection's next outbound id and transmit it — the
packet is not recorded in any history map. -/
def broadcastVisit (s : ServerState) (c : ConnId) (command : String)
    (d : Option Nat) : ServerState :=
  match jsGet s.conns c with
  | none => s
  | some w =>
    if w.readyState ≠ .opened then s
    else
      let s1 := updateConn s c (fun w0 => { w0 with lastSentId := w0.lastSentId + 1 })
      sendRaw s1 c { id := w.lastSentId + 1, command := command, data := d }

/-- `HanauServer.broadcast` (part_002 lines 270-283). -/
def broadcast (s : ServerState) (command : String) (d : Option Nat) : ServerState :=
  (s.clients.map Prod.snd).foldl (fun acc c => broadcastVisit acc c command d) s

/-- An event of the single-threaded server event loop. -/
inductive SEvent where
  | connect (c : ConnId)
  | handshake (c : ConnId) (sid : String) (lastReceivedId : Nat)
  | replay (c : ConnId) (sid : String) (lastReceivedId : Nat)
  | closeEvt (c : ConnId)
  | pong (c : ConnId)
  | apiSend (sid : String) (command : String) (d : Option Nat)
  | apiBroadcast (command : String) (d : Option Nat)
  | sweep
  | setBuffered (c : ConnId) (n : Nat)
  deriving Repr, DecidableEq

/-- Interpretation of one event. `setBuffered` is the transport updating
a socket's unsent buffered byte count. -/
def step (s : ServerState) : SEvent → ServerState
  | .connect c => handleConnect s c
  | .handshake c sid l => handleHandshake s c sid l
  | .replay c sid l => runReplay s c sid l
  | .closeEvt c => handleClose s c
  | .pong c => handlePong s c
  | .apiSend sid cmd d => serverSend s sid cmd d
  | .apiBroadcast cmd d => broadcast s cmd d
  | .sweep => runSweep s
  | .setBuffered c n => updateConn s c (fun w => { w with bufferedAmount := n })

/-- Run a trace of events from the freshly constructed server. -/
def runTrace (evs : List SEvent) : ServerState :=
  evs.foldl step initServer

/-- The ids of the packets transmitted to connections bound to a given
session id, in transmission order. -/
def sentIdsTo (s : ServerState) (sid : String) : List Nat :=
  s.sent.filterMap (fun r => if r.boundSession = some sid then some r.packet.id else none)

/-- The history buffer of a session, empty when none exists yet.  This is
exactly what `HanauServer.send` sees after its create-if-absent step. -/
def historyOf (s : ServerState) (sid : String) : List (Nat × Packet) :=
  (jsGet s.clientHistories sid).getD []

/-- The nonzero ids among the packets a client has handed to its
application message listeners, in delivery order. -/
def deliveredIds (cs : ClientState) : List Nat :=
  (cs.delivered.map Packet.id).filter (fun i => decide (i ≠ 0))

/-- Every existing per-session history buffer holds at most 100 entries. -/
def HistBound (s : ServerState) : Prop :=
  ∀ sid h, jsGet s.clientHistories sid = some h → h.length ≤ 100

/-! ## Generic lemmas about the JavaScript `Map` model -/

theorem jsGet_jsSet {κ τ : Type} [DecidableEq κ] (m : List (κ × τ)) (k k' : κ) (v : τ) :
    jsGet (jsSet m k v) k' = if k = k' then some v else jsGet m k' := by
  induction m with
  | nil => by_cases h : k = k' <;> simp [jsSet, jsGet, h]
  | cons e rest ih =>
      obtain ⟨k0, v0⟩ := e
      by_cases h0 : k0 = k
      · subst h0
        by_cases h : k0 = k' <;> simp [jsSet, jsGet, h]
      · by_cases h : k0 = k'
        · subst h
          have : ¬ k = k0 := fun hh => h0 hh.symm
          simp [jsSet, jsGet, h0, this]
        · simp [jsSet, jsGet, h0, h, ih]

theorem jsGet_jsSet_self {κ τ : Type} [DecidableEq κ] (m : List (κ × τ)) (k : κ) (v : τ) :
    jsGet (jsSet m k v) k = some v := by
  simp [jsGet_jsSet]

theorem jsSet_ne_nil {κ τ : Type} [DecidableEq κ] (m : List (κ × τ)) (k : κ) (v : τ) :
    jsSet m k v ≠ [] := by
  cases m with
  | nil => simp [jsSet]
  | cons e rest =>
      obtain ⟨k0, v0⟩ := e
      by_cases h : k0 = k <;> simp [jsSet, h]

theorem length_jsSet_le {κ τ : Type} [DecidableEq κ] (m : List (κ × τ)) (k : κ) (v : τ) :
    (jsSet m k v).length ≤ m.length + 1 := by
  induction m with
  | nil => simp [jsSet]
  | cons e rest ih =>
      obtain ⟨k0, v0⟩ := e
      by_cases h : k0 = k
      · simp [jsSet, h]
      · simpa [jsSet, h, Nat.succ_le_succ_iff] using ih

theorem jsGet_jsDelete_self {κ τ : Type} [DecidableEq κ] (m : List (κ × τ)) (k : κ) :
    jsGet (jsDelete m k) k = none := by
  induction m with
  | nil => simp [jsDelete, jsGet]
  | cons e rest ih =>
      obtain ⟨k0, v0⟩ := e
      by_cases h : k0 = k
      · simpa [jsDelete, h] using ih
      · simpa [jsDelete, jsGet, h] using ih

theorem length_jsDelete_lt {κ τ : Type} [DecidableEq κ] (m : List (κ × τ)) (k : κ)
    (h : k ∈ m.map Prod.fst) : (jsDelete m k).length < m.length := by
  induction m with
  | nil => simp at h
  | cons e rest ih =>
      obtain ⟨k0, v0⟩ := e
      by_cases h0 : k0 = k
      · subst h0
        simp only [jsDelete, List.filter]
        have : (decide (k0 ≠ k0)) = false := by simp
        rw [this]
        calc (List.filter (fun e => decide (e.1 ≠ k0)) rest).length
            ≤ rest.length := List.length_filter_le _ _
          _ < (⟨k0, v0⟩ :: rest).length := by simp
      · have hmem : k ∈ rest.map Prod.fst := by
          simp only [List.map_cons, List.mem_cons] at h
          rcases h with h | h
          · exact absurd h.symm h0
          · exact h
        have := ih hmem
        simp only [jsDelete, List.filter] at this ⊢
        have hne : (decide ((⟨k0, v0⟩ : κ × τ).1 ≠ k)) = true := by simp [h0]
        rw [hne]
        simpa using Nat.succ_lt_succ this

theorem foldl_min_mem (l : List Nat) (a : Nat) : l.foldl Nat.min a ∈ a :: l := by
  induction l generalizing a with
  | nil => simp
  | cons b rest ih =>
      have h := ih (Nat.min a b)
      rcases List.mem_cons.mp h with h | h
      · rw [List.foldl_cons, h]
        rcases Nat.le_total a b with hab | hab
        · simp [Nat.min_eq_left hab]
        · simp [Nat.min_eq_right hab]
      · simp [List.foldl_cons, List.mem_cons.mpr (Or.inr (List.mem_cons.mpr (Or.inr h)))]

theorem foldl_min_le (l : List Nat) (a : Nat) : l.foldl Nat.min a ≤ a := by
  induction l generalizing a with
  | nil => simp
  | cons b rest ih =>
      calc (b :: rest).foldl Nat.min a = rest.foldl Nat.min (Nat.min a b) := by simp
      _ ≤ Nat.min a b := ih _
      _ ≤ a := Nat.min_le_left _ _

theorem foldl_min_le_mem (l : List Nat) (a : Nat) (k : Nat) (hk : k ∈ l) :
    l.foldl Nat.min a ≤ k := by
  induction l generalizing a with
  | nil => simp at hk
  | cons b rest ih =>
      rcases List.mem_cons.mp hk with h | h
      · subst h
        calc (k :: rest).foldl Nat.min a = rest.foldl Nat.min (Nat.min a k) := by simp
        _ ≤ Nat.min a k := foldl_min_le _ _
        _ ≤ k := Nat.min_le_right _ _
      · calc (b :: rest).foldl Nat.min a = rest.foldl Nat.min (Nat.min a b) := by simp
        _ ≤ k := ih _ h

theorem listMin_mem (l : List Nat) (h : l ≠ []) : listMin l ∈ l := by
  cases l with
  | nil => exact absurd rfl h
  | cons a rest => exact foldl_min_mem rest a

theorem listMin_le (l : List Nat) (k : Nat) (hk : k ∈ l) : listMin l ≤ k := by
  cases l with
  | nil => simp at hk
  | cons a rest =>
      rcases List.mem_cons.mp hk with h | h
      · subst h
        exact foldl_min_le rest k
      · exact foldl_min_le_mem rest a k h

theorem minKey_mem (m : List (Nat × Packet)) (h : m ≠ []) : minKey m ∈ m.map Prod.fst :=
  listMin_mem _ (by simpa using h)

theorem jsGet_jsUpdate {κ τ : Type} [DecidableEq κ] (m : List (κ × τ)) (k k' : κ)
    (f : τ → τ) :
    jsGet (jsUpdate k f m) k' = if k = k' then (jsGet m k').map f else jsGet m k' := by
  induction m with
  | nil => by_cases h : k = k' <;> simp [jsUpdate, jsGet, h]
  | cons e rest ih =>
      obtain ⟨k0, v0⟩ := e
      simp only [jsUpdate]
      by_cases h0 : k0 = k
      · rw [if_pos h0]
        subst h0
        by_cases h : k0 = k'
        · subst h
          simp [jsGet]
        · simp [jsGet, h, ih]
      · rw [if_neg h0]
        by_cases h : k0 = k'
        · subst h
          have hne : ¬ k = k0 := fun hh => h0 hh.symm
          simp [jsGet, hne]
        · simp [jsGet, h, ih]

/-! ## Claim C10: `send` is a no-op without an OPEN bound connection -/

/-- C10: for every sessionId with no bound connection in the registry, or
whose bound connection is not in the OPEN ready state, `HanauServer.send`
returns without transmitting anything and without changing any server
state: the packet is not recorded in the session's history buffer, no id
is consumed, and the registry is unchanged — the whole server state is
literally unchanged. -/
theorem C10_send_noop_without_open_connection (s : ServerState) (sid cmd : String)
    (d : Option Nat)
    (h : jsGet s.clients sid = none ∨
      ∃ c w, jsGet s.clients sid = some c ∧ jsGet s.conns c = some w ∧
        w.readyState ≠ ReadyState.opened) :
    serverSend s sid cmd d = s := by
  unfold serverSend
  rcases h with h | ⟨c, w, hc, hw, hr⟩
  · rw [h]
  · simp only [hc, hw]
    rw [if_pos hr]

/-- Witness for C10: on the concrete server state in which session `"S"`
was bound but its connection's close event has been processed, a `send`
changes nothing. -/
theorem C10_send_noop_witness :
    serverSend (runTrace [.connect 0, .handshake 0 "S" 0, .closeEvt 0]) "S" "x" none =
      runTrace [.connect 0, .handshake 0 "S" 0, .closeEvt 0] :=
  C10_send_noop_without_open_connection _ "S" "x" none (Or.inl (by rfl))

/-! ## Claim C8: backpressure cutoff on `send` -/

/-- C8: for every `HanauServer.send` call whose target connection (bound
in the registry and OPEN) has unsent buffered byte count exceeding
5,000,000, the connection is terminated, its session is removed from the
registry, a disconnection notification fires, and the packet is dropped:
it is neither transmitted nor added to the session's history buffer. -/
theorem C8_backpressure_terminates (s : ServerState) (sid cmd : String)
    (d : Option Nat) (c : ConnId) (w : ConnState)
    (hc : jsGet s.clients sid = some c) (hw : jsGet s.conns c = some w)
    (hr : w.readyState = ReadyState.opened) (hb : w.bufferedAmount > 5000000) :
    (∃ w1, jsGet (serverSend s sid cmd d).conns c = some w1 ∧
      w1.readyState = ReadyState.closed) ∧
    jsGet (serverSend s sid cmd d).clients sid = none ∧
    (serverSend s sid cmd d).disconnectNotifs = s.disconnectNotifs ++ [sid] ∧
    (serverSend s sid cmd d).sent = s.sent ∧
    (serverSend s sid cmd d).clientHistories = s.clientHistories := by
  unfold serverSend
  simp only [hc, hw]
  rw [if_neg (by simp [hr]), if_pos hb]
  refine ⟨⟨{ w with lastSentId := w.lastSentId + 1, readyState := ReadyState.closed },
    ?_, rfl⟩, ?_, ?_, ?_, ?_⟩
  · simp [wsTerminate, updateConn, jsGet_jsUpdate, hw]
  · simp [wsTerminate, updateConn, jsGet_jsDelete_self]
  · simp [wsTerminate, updateConn]
  · simp [wsTerminate, updateConn]
  · simp [wsTerminate, updateConn]

/-- Witness for C8: a concrete session whose connection reports 5,000,001
buffered bytes is terminated, unbound and notified by a `send`, and the
packet is neither transmitted nor recorded. -/
theorem C8_backpressure_witness :
    (∃ w1, jsGet (serverSend
        (runTrace [.connect 0, .handshake 0 "S" 0, .setBuffered 0 5000001])
        "S" "x" none).conns 0 = some w1 ∧ w1.readyState = ReadyState.closed) ∧
    jsGet (serverSend
        (runTrace [.connect 0, .handshake 0 "S" 0, .setBuffered 0 5000001])
        "S" "x" none).clients "S" = none ∧
    (serverSend (runTrace [.connect 0, .handshake 0 "S" 0, .setBuffered 0 5000001])
        "S" "x" none).disconnectNotifs =
      (runTrace [.connect 0, .handshake 0 "S" 0, .setBuffered 0 5000001]).disconnectNotifs
        ++ ["S"] ∧
    (serverSend (runTrace [.connect 0, .handshake 0 "S" 0, .setBuffered 0 5000001])
        "S" "x" none).sent =
      (runTrace [.connect 0, .handshake 0 "S" 0, .setBuffered 0 5000001]).sent ∧
    (serverSend (runTrace [.connect 0, .handshake 0 "S" 0, .setBuffered 0 5000001])
        "S" "x" none).clientHistories =
      (runTrace [.connect 0, .handshake 0 "S" 0, .setBuffered 0 5000001]).clientHistories :=
  C8_backpressure_terminates _ "S" "x" none 0
    { isAlive := true
      lastSentId := 1
      sessionId := some "S"
      readyState := ReadyState.opened
      bufferedAmount := 5000001
      closeCode := none }
    (by rfl) (by rfl) (by rfl) (by decide)

/-! ## Claim C3: bounded history with smallest-id eviction -/

theorem length_historyInsert (h : List (Nat × Packet)) (p : Packet)
    (hh : h.length ≤ 100) : (historyInsert h p).length ≤ 100 := by
  unfold historyInsert
  by_cases hlen : (jsSet h p.id p).length > 100
  · rw [if_pos hlen]
    have hne : jsSet h p.id p ≠ [] := jsSet_ne_nil h p.id p
    have hmem := minKey_mem (jsSet h p.id p) hne
    have hlt := length_jsDelete_lt (jsSet h p.id p) (minKey (jsSet h p.id p)) hmem
    have hle := length_jsSet_le h p.id p
    omega
  · rw [if_neg hlen]
    omega

theorem histBound_serverSend (s : ServerState) (sid cmd : String) (d : Option Nat)
    (hB : HistBound s) : HistBound (serverSend s sid cmd d) := by
  unfold serverSend
  cases hc : jsGet s.clients sid with
  | none => exact hB
  | some c =>
    simp only []
    cases hw : jsGet s.conns c with
    | none => exact hB
    | some w =>
      simp only []
      by_cases hr : w.readyState ≠ ReadyState.opened
      · rw [if_pos hr]
        exact hB
      · rw [if_neg hr]
        by_cases hb : w.bufferedAmount > 5000000
        · rw [if_pos hb]
          intro sid' h' hh'
          exact hB sid' h' hh'
        · rw [if_neg hb]
          by_cases hHas : jsHas (updateConn s c
              (fun w => { w with lastSentId := w.lastSentId + 1 })).clientHistories sid = true
          · rw [if_pos hHas]
            cases hg : jsGet (updateConn s c
                (fun w => { w with lastSentId := w.lastSentId + 1 })).clientHistories sid with
            | none => intro sid' h' hh'; exact hB sid' h' hh'
            | some h0 =>
              intro sid' h' hh'
              simp only [updateConn, sendRaw] at hh'
              rw [jsGet_jsSet] at hh'
              by_cases hs : sid = sid'
              · rw [if_pos hs] at hh'
                injection hh' with hx
                subst hx
                exact length_historyInsert h0 _ (hB sid h0 hg)
              · rw [if_neg hs] at hh'
                exact hB sid' h' hh'
          · rw [if_neg hHas]
            cases hg : jsGet (jsSet (updateConn s c
                (fun w => { w with lastSentId := w.lastSentId + 1 })).clientHistories
                sid []) sid with
            | none =>
                rw [jsGet_jsSet_self] at hg
                exact absurd hg (by simp)
            | some h0 =>
              have h0nil : h0 = [] := by
                rw [jsGet_jsSet_self] at hg
                exact (Option.some_inj.mp hg).symm
              subst h0nil
              intro sid' h' hh'
              simp only [updateConn, sendRaw] at hh'
              rw [jsGet_jsSet] at hh'
              by_cases hs : sid = sid'
              · rw [if_pos hs] at hh'
                injection hh' with hx
                subst hx
                exact length_historyInsert [] _ (by simp)
              · rw [if_neg hs] at hh'
                rw [jsGet_jsSet, if_neg hs] at hh'
                exact hB sid' h' hh'

/-- C3: for every session, after any sequence of `HanauServer.send` calls
(starting from any state whose histories are within the bound, in
particular the initial state) the session's history buffer holds at most
100 entries; and whenever an insertion makes the buffer exceed that
capacity, the entry evicted is exactly the one with the smallest id,
which is a lower bound of all ids present. -/
theorem C3_history_bounded_min_evicted :
    (∀ (calls : List (String × String × Option Nat)) (s : ServerState), HistBound s →
      HistBound (calls.foldl (fun a x => serverSend a x.1 x.2.1 x.2.2) s)) ∧
    (∀ (h : List (Nat × Packet)) (p : Packet), (jsSet h p.id p).length > 100 →
      historyInsert h p = jsDelete (jsSet h p.id p) (minKey (jsSet h p.id p)) ∧
      ∀ k ∈ (jsSet h p.id p).map Prod.fst, minKey (jsSet h p.id p) ≤ k) := by
  constructor
  · intro calls
    induction calls with
    | nil => intro s hB; exact hB
    | cons x rest ih =>
        intro s hB
        exact ih _ (histBound_serverSend s x.1 x.2.1 x.2.2 hB)
  · intro h p hlen
    constructor
    · unfold historyInsert
      rw [if_pos hlen]
    · intro k hk
      exact listMin_le _ k (by simpa [minKey] using hk)

/-- Witness for C3: a send on a freshly handshaken session preserves the
bound, and inserting a 101st entry into a concrete full history evicts
the smallest id, which bounds every key. -/
theorem C3_history_bounded_witness :
    HistBound ([("S", "x", (none : Option Nat))].foldl
      (fun a x => serverSend a x.1 x.2.1 x.2.2)
      (runTrace [.connect 0, .handshake 0 "S" 0])) ∧
    (historyInsert ((List.range 100).map
          (fun i => ((i + 1 : Nat), ({ id := i + 1, command := "a", data := none } : Packet))))
        { id := 200, command := "b", data := none } =
      jsDelete
        (jsSet ((List.range 100).map
            (fun i => ((i + 1 : Nat), ({ id := i + 1, command := "a", data := none } : Packet))))
          200 { id := 200, command := "b", data := none })
        (minKey (jsSet ((List.range 100).map
            (fun i => ((i + 1 : Nat), ({ id := i + 1, command := "a", data := none } : Packet))))
          200 { id := 200, command := "b", data := none })) ∧
      ∀ k ∈ (jsSet ((List.range 100).map
            (fun i => ((i + 1 : Nat), ({ id := i + 1, command := "a", data := none } : Packet))))
          200 { id := 200, command := "b", data := none }).map Prod.fst,
        minKey (jsSet ((List.range 100).map
            (fun i => ((i + 1 : Nat), ({ id := i + 1, command := "a", data := none } : Packet))))
          200 { id := 200, command := "b", data := none }) ≤ k) := by
  constructor
  · apply C3_history_bounded_min_evicted.1
    intro sid h hh
    rw [show (runTrace [.connect 0, .handshake 0 "S" 0]).clientHistories
        = [("S", [])] from rfl] at hh
    by_cases hs : "S" = sid
    · have : h = [] := by simpa [jsGet, hs] using hh
      simp [this]
    · simp [jsGet, hs] at hh
  · exact C3_history_bounded_min_evicted.2 _ _ (by decide)

/-! ## Claim C6: client duplicate suppression -/

theorem c6_step (cs : ClientState) (m : Packet)
    (h1 : (deliveredIds cs).Pairwise (· < ·))
    (h2 : ∀ i ∈ deliveredIds cs, i ≤ cs.lastReceivedId) :
    (deliveredIds (handleMessage cs m)).Pairwise (· < ·) ∧
    ∀ i ∈ deliveredIds (handleMessage cs m), i ≤ (handleMessage cs m).lastReceivedId := by
  unfold handleMessage
  by_cases hid : m.id ≠ 0
  · rw [if_pos hid]
    by_cases hle : m.id ≤ cs.lastReceivedId
    · rw [if_pos hle]
      exact ⟨h1, h2⟩
    · rw [if_neg hle]
      have hlt : cs.lastReceivedId < m.id := Nat.lt_of_not_le hle
      unfold clientDispatch
      by_cases hcnd : m.command ≠ "" ∧
          m.command ∈ ({ cs with lastReceivedId := m.id } : ClientState).listeners
      · rw [if_pos hcnd]
        have hD : deliveredIds
            { cs with lastReceivedId := m.id, delivered := cs.delivered ++ [m] } =
            deliveredIds cs ++ [m.id] := by
          simp [deliveredIds, hid]
        constructor
        · rw [hD]
          refine List.pairwise_append.mpr ⟨h1, by simp, ?_⟩
          intro a ha b hb
          have hbm : b = m.id := by simpa using hb
          subst hbm
          exact Nat.lt_of_le_of_lt (h2 a ha) hlt
        · intro i hi
          rw [hD] at hi
          rcases List.mem_append.mp hi with hi | hi
          · exact Nat.le_of_lt (Nat.lt_of_le_of_lt (h2 i hi) hlt)
          · have : i = m.id := by simpa using hi
            simp [this]
      · rw [if_neg hcnd]
        refine ⟨h1, ?_⟩
        intro i hi
        exact Nat.le_of_lt (Nat.lt_of_le_of_lt (h2 i hi) hlt)
  · rw [if_neg hid]
    have hid0 : m.id = 0 := not_not.mp hid
    unfold clientDispatch
    by_cases hcnd : m.command ≠ "" ∧ m.command ∈ cs.listeners
    · rw [if_pos hcnd]
      have hD : deliveredIds { cs with delivered := cs.delivered ++ [m] } =
          deliveredIds cs := by
        simp [deliveredIds, hid0]
      constructor
      · rw [hD]
        exact h1
      · intro i hi
        rw [hD] at hi
        exact h2 i hi
    · rw [if_neg hcnd]
      exact ⟨h1, h2⟩

theorem c6_fold (msgs : List Packet) (cs : ClientState)
    (h1 : (deliveredIds cs).Pairwise (· < ·))
    (h2 : ∀ i ∈ deliveredIds cs, i ≤ cs.lastReceivedId) :
    (deliveredIds (processAll cs msgs)).Pairwise (· < ·) ∧
    ∀ i ∈ deliveredIds (processAll cs msgs), i ≤ (processAll cs msgs).lastReceivedId := by
  induction msgs generalizing cs with
  | nil => exact ⟨h1, h2⟩
  | cons m rest ih =>
      have hstep := c6_step cs m h1 h2
      simpa [processAll] using ih (handleMessage cs m) hstep.1 hstep.2

/-- C6: for every incoming packet whose id is nonzero and at most the
client's `lastReceivedId`, `HanauClient._handleMessage` invokes no
application message listener and leaves the whole client state unchanged;
consequently, over any sequence of processed packets starting with an
empty delivery log, no nonzero packet id is ever handed to application
handlers twice. -/
theorem C6_duplicate_suppression :
    (∀ (cs : ClientState) (m : Packet), m.id ≠ 0 → m.id ≤ cs.lastReceivedId →
      handleMessage cs m = cs) ∧
    (∀ (cs : ClientState) (msgs : List Packet), cs.delivered = [] →
      (deliveredIds (processAll cs msgs)).Nodup) := by
  constructor
  · intro cs m hid hle
    unfold handleMessage
    rw [if_pos hid, if_pos hle]
  · intro cs msgs hD
    have h0 : deliveredIds cs = [] := by simp [deliveredIds, hD]
    have h := c6_fold msgs cs (by simp [h0]) (by simp [h0])
    exact h.1.imp (fun hab => Nat.ne_of_lt hab)

/-- Witness for C6: a packet with id 3 arriving when `lastReceivedId` is
5 is fully ignored, and delivering the same id-1 packet twice results in
a duplicate-free list of delivered nonzero ids. -/
theorem C6_duplicate_suppression_witness :
    handleMessage { initClient with lastReceivedId := 5 }
        { id := 3, command := "handshake_ack", data := none } =
      { initClient with lastReceivedId := 5 } ∧
    (deliveredIds (processAll initClient
      [{ id := 1, command := "handshake_ack", data := none },
       { id := 1, command := "handshake_ack", data := none }])).Nodup :=
  ⟨C6_duplicate_suppression.1 _ _ (by decide) (by decide),
   C6_duplicate_suppression.2 initClient _ rfl⟩

/-! ## Claim C5: recording before transmission -/

theorem clientHistories_broadcastVisit (s : ServerState) (c : ConnId) (cmd : String)
    (d : Option Nat) : (broadcastVisit s c cmd d).clientHistories = s.clientHistories := by
  unfold broadcastVisit
  cases hw : jsGet s.conns c with
  | none => rfl
  | some w =>
      simp only []
      by_cases hr : w.readyState ≠ ReadyState.opened
      · rw [if_pos hr]
      · rw [if_neg hr]
        rfl

theorem clientHistories_broadcast (s : ServerState) (cmd : String) (d : Option Nat) :
    (broadcast s cmd d).clientHistories = s.clientHistories := by
  unfold broadcast
  generalize s.clients.map Prod.snd = l
  induction l generalizing s with
  | nil => rfl
  | cons c rest ih =>
      simp only [List.foldl_cons]
      rw [ih (broadcastVisit s c cmd d), clientHistories_broadcastVisit]

theorem c5_send_records (s : ServerState) (sid cmd : String) (d : Option Nat)
    (c : ConnId) (w : ConnState)
    (hc : jsGet s.clients sid = some c) (hw : jsGet s.conns c = some w)
    (hr : w.readyState = ReadyState.opened) (hb : ¬ w.bufferedAmount > 5000000) :
    jsGet (serverSend s sid cmd d).clientHistories sid =
      some (historyInsert (historyOf s sid)
        { id := w.lastSentId + 1, command := cmd, data := d }) ∧
    (serverSend s sid cmd d).sent = s.sent ++
      [⟨c, w.sessionId, { id := w.lastSentId + 1, command := cmd, data := d }⟩] := by
  unfold serverSend
  simp only [hc, hw]
  rw [if_neg (by simp [hr]), if_neg hb]
  by_cases hHas : jsHas (updateConn s c
      (fun w => { w with lastSentId := w.lastSentId + 1 })).clientHistories sid = true
  · rw [if_pos hHas]
    cases hg : jsGet (updateConn s c
        (fun w => { w with lastSentId := w.lastSentId + 1 })).clientHistories sid with
    | none => simp [jsHas, hg] at hHas
    | some h0 =>
        simp only [updateConn] at hg
        have hof : historyOf s sid = h0 := by simp [historyOf, hg]
        constructor
        · simp only [sendRaw, updateConn]
          rw [jsGet_jsSet_self, hof]
        · simp [sendRaw, updateConn, jsGet_jsUpdate, hw]
  · rw [if_neg hHas]
    cases hg : jsGet (jsSet (updateConn s c
        (fun w => { w with lastSentId := w.lastSentId + 1 })).clientHistories sid []) sid with
    | none =>
        rw [jsGet_jsSet_self] at hg
        exact absurd hg (by simp)
    | some h0 =>
        have h0nil : h0 = [] := by
          rw [jsGet_jsSet_self] at hg
          exact (Option.some_inj.mp hg).symm
        subst h0nil
        have hnone : jsGet s.clientHistories sid = none := by
          cases hq : jsGet s.clientHistories sid with
          | none => rfl
          | some h1 => simp [jsHas, updateConn, hq] at hHas
        have hof : historyOf s sid = [] := by simp [historyOf, hnone]
        constructor
        · simp only [sendRaw, updateConn]
          rw [jsGet_jsSet_self, hof]
        · simp [sendRaw, updateConn, jsGet_jsUpdate, hw]

/-- Counterexample to C5 as stated: after a handshake binds session "S",
a `broadcast` transmits a packet (id 2, command "b") to the connection
bound to "S" while the session's history buffer stays empty — so a packet
transmitted via `HanauServer.broadcast` is not recorded in the history
buffer, neither before transmission nor ever. -/
theorem C5_broadcast_unrecorded_counterexample :
    (runTrace [.connect 0, .handshake 0 "S" 0, .apiBroadcast "b" none]).sent.map
        (fun r => (r.boundSession, r.packet.id, r.packet.command)) =
      [(some "S", 1, "handshake_ack"), (some "S", 2, "b")] ∧
    jsGet (runTrace [.connect 0, .handshake 0 "S" 0,
        .apiBroadcast "b" none]).clientHistories "S" = some [] :=
  ⟨rfl, rfl⟩

/-- C5 amended: every packet transmitted by `HanauServer.send` is first
recorded in the target session's history buffer (the new buffer is
exactly the capped insertion of the packet) and then transmitted; packets
transmitted by `HanauServer.broadcast`, by contrast, are never recorded:
`broadcast` leaves every history buffer unchanged. -/
theorem C5_send_records_broadcast_does_not :
    (∀ (s : ServerState) (sid cmd : String) (d : Option Nat) (c : ConnId) (w : ConnState),
      jsGet s.clients sid = some c → jsGet s.conns c = some w →
      w.readyState = ReadyState.opened → ¬ w.bufferedAmount > 5000000 →
      jsGet (serverSend s sid cmd d).clientHistories sid =
        some (historyInsert (historyOf s sid)
          { id := w.lastSentId + 1, command := cmd, data := d }) ∧
      (serverSend s sid cmd d).sent = s.sent ++
        [⟨c, w.sessionId, { id := w.lastSentId + 1, command := cmd, data := d }⟩]) ∧
    (∀ (s : ServerState) (cmd : String) (d : Option Nat),
      (broadcast s cmd d).clientHistories = s.clientHistories) :=
  ⟨fun s sid cmd d c w hc hw hr hb => c5_send_records s sid cmd d c w hc hw hr hb,
   fun s cmd d => clientHistories_broadcast s cmd d⟩

/-- Witness for C5 amended: on the concrete state after one handshake, a
`send` records packet id 2 in the history of "S" and transmits it, and
a `broadcast` on the same state leaves the histories unchanged. -/
theorem C5_send_records_witness :
    (jsGet (serverSend (runTrace [.connect 0, .handshake 0 "S" 0]) "S" "x"
        none).clientHistories "S" =
      some (historyInsert (historyOf (runTrace [.connect 0, .handshake 0 "S" 0]) "S")
        { id := 2, command := "x", data := none }) ∧
      (serverSend (runTrace [.connect 0, .handshake 0 "S" 0]) "S" "x" none).sent =
        (runTrace [.connect 0, .handshake 0 "S" 0]).sent ++
          [⟨0, some "S", { id := 2, command := "x", data := none }⟩]) ∧
    (broadcast (runTrace [.connect 0, .handshake 0 "S" 0]) "y"
        none).clientHistories =
      (runTrace [.connect 0, .handshake 0 "S" 0]).clientHistories :=
  ⟨C5_send_records_broadcast_does_not.1 (runTrace [.connect 0, .handshake 0 "S" 0])
      "S" "x" none 0
      { isAlive := true
        lastSentId := 1
        sessionId := some "S"
        readyState := ReadyState.opened
        bufferedAmount := 0
        closeCode := none }
      (by rfl) (by rfl) (by rfl) (by decide),
   C5_send_records_broadcast_does_not.2 (runTrace [.connect 0, .handshake 0 "S" 0])
      "y" none⟩

/-! ## Claim C7: reconnection backoff and give-up -/

/-- Counterexample to C7 as stated: starting from the freshly constructed
client, after 5 consecutive failed reconnection attempts the attempt
counter is 5, reconnection is still permitted, and the next `_reconnect`
call still schedules a 6th automatic attempt (with delay 6000 ms) instead
of stopping — so automatic reconnection does not stop after 5 attempts. -/
theorem C7_sixth_attempt_counterexample :
    (reconnectN initClient 5).reconnectCount = 5 ∧
    (reconnectN initClient 5).mayReconnect = true ∧
    (reconnectStep (reconnectN initClient 5)).2 = some 6000 ∧
    (reconnectStep (reconnectN initClient 5)).1.mayReconnect = true := by
  decide

/-- C7 amended: while reconnection is permitted and the attempt counter
is at most 5, each `_reconnect` call increments the counter and schedules
a retry after exactly `1000 * counter` ms — a delay that strictly
increases linearly over consecutive failed attempts; the give-up
transition happens only once the counter exceeds 5, i.e. on the 7th
consecutive call (after 6 scheduled attempts): it clears `mayReconnect`
and schedules nothing, and once `mayReconnect` is false `_reconnect`
never schedules anything again. -/
theorem reconnect_schedules (cs : ClientState) (hm : cs.mayReconnect = true)
    (hcnt : cs.reconnectCount ≤ 5) :
    reconnectStep cs = ({ cs with reconnectCount := cs.reconnectCount + 1 },
      some (1000 * (cs.reconnectCount + 1))) := by
  unfold reconnectStep
  rw [hm]
  rw [if_neg (by simp), if_neg (by omega)]

theorem C7_backoff_amended :
    (∀ cs : ClientState, cs.mayReconnect = true → cs.reconnectCount ≤ 5 →
      reconnectStep cs = ({ cs with reconnectCount := cs.reconnectCount + 1 },
        some (1000 * (cs.reconnectCount + 1)))) ∧
    (∀ cs : ClientState, cs.mayReconnect = true → cs.reconnectCount ≤ 4 →
      ∃ d1 d2 : Nat, (reconnectStep cs).2 = some d1 ∧
        (reconnectStep (reconnectStep cs).1).2 = some d2 ∧ d1 < d2) ∧
    (∀ cs : ClientState, cs.mayReconnect = true → cs.reconnectCount > 5 →
      reconnectStep cs = ({ cs with mayReconnect := false }, none)) ∧
    (∀ cs : ClientState, cs.mayReconnect = false → reconnectStep cs = (cs, none)) := by
  refine ⟨?_, ?_, ?_, ?_⟩
  · intro cs hm hcnt
    exact reconnect_schedules cs hm hcnt
  · intro cs hm hcnt
    have e1 := reconnect_schedules cs hm (by omega)
    have e2 := reconnect_schedules { cs with reconnectCount := cs.reconnectCount + 1 }
      hm (by simpa using Nat.succ_le_succ hcnt)
    refine ⟨1000 * (cs.reconnectCount + 1), 1000 * (cs.reconnectCount + 2), ?_, ?_, by omega⟩
    · rw [e1]
    · rw [e1]
      exact congrArg Prod.snd e2
  · intro cs hm hcnt
    unfold reconnectStep
    rw [hm]
    rw [if_neg (by simp), if_pos hcnt]
  · intro cs hm
    unfold reconnectStep
    rw [hm]
    rw [if_pos (by simp)]

/-- Witness for C7 amended: at concrete client states with counters 0, 0,
6 and with reconnection forbidden, the four amended properties hold. -/
theorem C7_backoff_witness :
    reconnectStep initClient =
      ({ initClient with reconnectCount := 1 }, some 1000) ∧
    (∃ d1 d2 : Nat, (reconnectStep initClient).2 = some d1 ∧
      (reconnectStep (reconnectStep initClient).1).2 = some d2 ∧ d1 < d2) ∧
    reconnectStep { initClient with reconnectCount := 6 } =
      ({ initClient with reconnectCount := 6, mayReconnect := false }, none) ∧
    reconnectStep { initClient with mayReconnect := false } =
      ({ initClient with mayReconnect := false }, none) :=
  ⟨C7_backoff_amended.1 initClient (by decide) (by decide),
   C7_backoff_amended.2.1 initClient (by decide) (by decide),
   C7_backoff_amended.2.2.1 { initClient with reconnectCount := 6 } (by decide) (by decide),
   C7_backoff_amended.2.2.2 { initClient with mayReconnect := false } (by decide)⟩

/-! ## Claim C1: sequence ids across reconnects -/

/-- C1 evaluated on the code at the failing input: the server stamps
outbound ids per physical connection, re-initialising `lastSentId` to 0
on each new connection.  Over the life of session "S" spanning a
reconnect, the ids transmitted to "S" are 1, 2, 1, 2 — the handshake ack
and first post-reconnect send reuse ids 1 and 2 already sent to the same
session, so the per-session sequence is not strictly increasing. -/
theorem C1_ids_reset_across_reconnect :
    sentIdsTo (runTrace [.connect 0, .handshake 0 "S" 0, .apiSend "S" "x" none,
      .connect 1, .handshake 1 "S" 2, .apiSend "S" "y" none]) "S" = [1, 2, 1, 2] ∧
    ¬ List.Chain' (· < ·) [1, 2, 1, 2] :=
  ⟨rfl, by simp [List.chain'_cons]⟩

/-! ## Claim C2: duplicate-session eviction and unique binding -/

/-- C2 evaluated on the code at the failing input: when connection 1
handshakes with the session id "S" already bound to connection 0, the old
connection is indeed closed with code 4002 before the new one is bound
(after the handshake the registry maps "S" to connection 1).  But the old
connection's close handler then deletes the registry entry for "S"
without checking identity: after the close event is processed, no
connection at all is bound to "S" (the new binding is lost) and a
spurious disconnection notification for "S" has fired. -/
theorem C2_close_event_unbinds_new_connection :
    jsGet (runTrace [.connect 0, .handshake 0 "S" 0, .connect 1,
        .handshake 1 "S" 0]).clients "S" = some 1 ∧
    (jsGet (runTrace [.connect 0, .handshake 0 "S" 0, .connect 1,
        .handshake 1 "S" 0]).conns 0).map ConnState.closeCode = some (some 4002) ∧
    jsGet (runTrace [.connect 0, .handshake 0 "S" 0, .connect 1,
        .handshake 1 "S" 0, .closeEvt 0]).clients "S" = none ∧
    (runTrace [.connect 0, .handshake 0 "S" 0, .connect 1,
        .handshake 1 "S" 0, .closeEvt 0]).disconnectNotifs = ["S"] :=
  ⟨rfl, rfl, rfl, rfl⟩

/-! ## Claim C4: replay filter and order -/

/-- C4 evaluated on the code at the failing input: session "S" first
lives on connection 0, where a broadcast consumes id 2 without recording
it and a send records id 3; after a reconnect onto connection 1 the
per-connection id counter restarts, so a send during the handshake's
connection notification records id 2 — appended after id 3 in the
history's insertion order.  The replay for `lastReceivedId = 0` then
transmits ids 3, 2: the filter `id > lastReceivedId` is respected but
the delivery order is not strictly increasing. -/
theorem C4_replay_out_of_order :
    ((runReplay (runTrace [.connect 0, .handshake 0 "S" 0, .apiBroadcast "b" none,
        .apiSend "S" "x" none, .connect 1, .handshake 1 "S" 0, .apiSend "S" "y" none])
        1 "S" 0).sent.drop
      (runTrace [.connect 0, .handshake 0 "S" 0, .apiBroadcast "b" none,
        .apiSend "S" "x" none, .connect 1, .handshake 1 "S" 0,
        .apiSend "S" "y" none]).sent.length).map (fun r => r.packet.id) = [3, 2] ∧
    (∀ i ∈ [3, 2], (0 : Nat) < i) ∧
    ¬ List.Chain' (· < ·) [3, 2] :=
  ⟨rfl, by decide, by simp [List.chain'_cons]⟩

/-! ## Claim C9: liveness sweep notifications -/

/-- C9 evaluated on the code: after one sweep the healthy connection has
its alive flag cleared and a ping logged (the "otherwise" branch); a
second sweep finds the flag down, terminates the connection, unbinds
session "S" and fires the disconnection listeners once — but the
terminated socket's close event then fires them again, because the close
handler neither clears the socket's session id nor checks the registry:
the disconnection notification for one termination fires twice, not
exactly once. -/
theorem C9_disconnection_fires_twice :
    (jsGet (runTrace [.connect 0, .handshake 0 "S" 0, .sweep]).conns 0).map
        ConnState.isAlive = some false ∧
    (runTrace [.connect 0, .handshake 0 "S" 0, .sweep]).pinged = [0] ∧
    (runTrace [.connect 0, .handshake 0 "S" 0, .sweep]).disconnectNotifs = [] ∧
    (runTrace [.connect 0, .handshake 0 "S" 0, .sweep, .sweep]).disconnectNotifs = ["S"] ∧
    (jsGet (runTrace [.connect 0, .handshake 0 "S" 0, .sweep, .sweep]).conns 0).map
        ConnState.readyState = some ReadyState.closed ∧
    jsGet (runTrace [.connect 0, .handshake 0 "S" 0, .sweep, .sweep]).clients "S" = none ∧
    (runTrace [.connect 0, .handshake 0 "S" 0, .sweep, .sweep,
        .closeEvt 0]).disconnectNotifs = ["S", "S"] :=
  ⟨rfl, rfl, rfl, rfl, rfl, rfl, rfl⟩

end Hanau
